import Mathlib

/- Verification of the CopyJedi paste-detection heuristic
   (src/copyjedi/src/extension.js).

   The classifier inspects document-change events and decides whether an
   edit was a paste.  We embed the decision logic shallowly: JavaScript
   strings become Lean `String`s, `Date.now()` timestamps become `Nat`
   milliseconds, the awaited clipboard read becomes an `Except Unit String`
   input (the `error` case models the clipboard promise rejecting, which
   the handler's try/catch swallows), and the module-level mutable
   variables (`isTracking`, `lastEditTime`, `lastPasteKeyCombination`,
   `lastKeypressTime`, `pasteStats`) become an explicit `ExtState` record
   threaded through the event handler. -/

namespace CopyJedi

/- ### String helpers mirroring the JavaScript string primitives -/

/-- The `\x7b` character (left curly brace). -/
def lbrace : Char := Char.ofNat 123

/-- The `\x7d` character (right curly brace). -/
def rbrace : Char := Char.ofNat 125

/-- List-level prefix test (structural, decidable by evaluation). -/
def listIsPrefix : List Char → List Char → Bool
  | [], _ => true
  | _ :: _, [] => false
  | a :: as, b :: bs => a = b && listIsPrefix as bs

/-- List-level substring test: `needle` occurs contiguously in `hay`. -/
def listIncludes (hay needle : List Char) : Bool :=
  (List.range (hay.length + 1)).any (fun i => listIsPrefix needle (hay.drop i))

/-- JavaScript `String.prototype.includes`. -/
def jsIncludes (s sub : String) : Bool :=
  listIncludes s.toList sub.toList

/-- JavaScript `String.prototype.substring(0, n)`. -/
def jsTake (s : String) (n : Nat) : String :=
  ⟨s.toList.take n⟩

/-- JavaScript `String.prototype.toLowerCase` (ASCII case folding, the
    same per-character map as `String.toLower`, stated over the character
    list so it evaluates by structural recursion). -/
def jsToLower (s : String) : String :=
  ⟨s.toList.map Char.toLower⟩

/-- JavaScript `s.split("\n")`: split a character list at newline
    characters, keeping empty pieces (so the number of pieces is always
    the number of newlines plus one, as for the JS method). -/
def splitNl : List Char → List (List Char)
  | [] => [[]]
  | c :: rest =>
    let r := splitNl rest
    if c = '\n' then [] :: r
    else
      match r with
      | [] => [[c]]
      | h :: t => (c :: h) :: t

/-- `change.text.split("\n").length` — the line count the extension
    credits for a detected paste. -/
def lineCount (s : String) : Nat :=
  (splitNl s.toList).length

/- ### Data model (host editor objects, as far as the classifier reads them) -/

/-- A position in a document (`vscode.Position`): line and character. -/
structure Position where
  line : Nat
  character : Nat
deriving DecidableEq

/-- A replaced range (`vscode.Range`).  The source field `end` is a Lean
    keyword, so it is named `stop` here. -/
structure Range where
  start : Position
  stop : Position
deriving DecidableEq

/-- One content change of a text-document change event: the inserted text
    and the replaced range.  The source reads `change.range` behind a
    truthiness guard, so the range is optional here. -/
structure ContentChange where
  text : String
  range : Option Range
deriving DecidableEq

/-- The parts of a `vscode.TextDocument` the classifier reads: the URI
    scheme, the full URI string, the language identifier, and the document
    text (for `getText()`). -/
structure Document where
  scheme : String
  uriString : String
  languageId : String
  text : String
deriving DecidableEq

/-- A `vscode.TextDocumentChangeEvent`: owning document plus the list of
    content changes. -/
structure ChangeEvent where
  document : Document
  contentChanges : List ContentChange
deriving DecidableEq

/-- The cumulative counters of the `pasteStats` record (the fields the
    change handler mutates). -/
structure PasteStats where
  totalPastes : Nat
  totalLinesPasted : Nat
deriving DecidableEq

/-- The module-level mutable variables of extension.js that the paste
    tracking reads or writes. -/
structure ExtState where
  isTracking : Bool
  lastEditTime : Nat
  lastPasteKeyCombination : Bool
  lastKeypressTime : Nat
  stats : PasteStats
deriving DecidableEq

/- ### The classifier helpers (extension.js lines 205-357) -/

/-- The fixed marker strings of `isCopilotCode`. -/
def copilotPatterns : List String :=
  ["// Copilot suggestion",
   "// Suggested by",
   "// Generated by",
   "// Via GitHub Copilot",
   "<!-- GitHub Copilot",
   "/* Copilot suggestion",
   "// This code was suggested by",
   "// Auto-generated"]

/-- `isCopilotCode(text)`: true when any marker occurs in the text. -/
def isCopilotCode (text : String) : Bool :=
  copilotPatterns.any (fun pattern => jsIncludes text pattern)

/-- The alternatives of the keyword regex in `hasCodePatterns`
    (matched case-insensitively, as substrings). -/
def codeKeywordAlternatives : List String :=
  ["function", "const", "let", "var", "import", "export", "if", "for",
   "while", "class", "=>", "return"]

/-- The character class of the symbol regex in `hasCodePatterns`. -/
def codeSymbolChars : List Char :=
  [lbrace, rbrace, '[', ']', '(', ')', ';', '=', '+', '-', '*', '/', '%']

/-- `hasCodePatterns(text)`: the keyword regex has the `i` flag, so the
    text is lowercased before the substring tests. -/
def hasCodePatterns (text : String) : Bool :=
  codeKeywordAlternatives.any (fun kw => jsIncludes (jsToLower text) kw) ||
  text.toList.any (fun c => codeSymbolChars.contains c)

/-- The `nonEditableTypes` denylist of `isEditableDocument`. -/
def nonEditableTypes : List String :=
  ["log", "output", "scm", "debug", "terminal", "plaintext", "markdown",
   "json", "jsonc", "git-commit", "git-rebase", "search-result", "diff",
   "shellscript", "console"]

/-- `isEditableDocument(document)`: scheme must be `file` or `untitled`,
    the lowercased URI must not reference extension output/debug panes, and
    the language id must not be on the denylist.  The source also checks a
    `programmingLanguages` allowlist but only logs on a miss and still
    returns true, so that check has no effect on the result and is not
    modelled. -/
def isEditableDocument (document : Document) : Bool :=
  if document.scheme ≠ "file" ∧ document.scheme ≠ "untitled" then false
  else
    let uriString := jsToLower document.uriString
    if jsIncludes uriString "extension-output" ||
       jsIncludes uriString "debug-console" ||
       jsIncludes uriString "output-channel" ||
       jsIncludes uriString "extension-editor" then false
    else if nonEditableTypes.contains document.languageId then false
    else true

/-- `isProbablyPaste(change, clipboard)`: the per-change heuristic.  The
    source reads the active editor's document for its editability check;
    the handler has already ensured the event's document is the active
    one, so that document is passed here explicitly.  The JS guard
    `!change.text || change.text.length < 5` collapses to the length test
    because the empty string has length 0. -/
def isProbablyPaste (change : ContentChange) (document : Document)
    (clipboard : String) : Bool :=
  if isCopilotCode change.text then false
  else if change.text.length < 5 then false
  else if ¬ isEditableDocument document then false
  else
    let clipboardMatch :=
      decide (clipboard ≠ "") && jsIncludes change.text (jsTake clipboard 20)
    let isLargeInsertion := decide (change.text.length > 50)
    let isMultiLine := decide ((splitNl change.text.toList).length > 2)
    let isBulkChange :=
      match change.range with
      | none => false
      | some range =>
        decide
          (((range.stop.character : Int) - (range.start.character : Int)).natAbs
            > 10)
    clipboardMatch || (isLargeInsertion && (isMultiLine || isBulkChange))

/-- The decision the handler's loop takes for one content change
    (extension.js lines 661-666): the heuristic result OR'd with the
    keyboard-shortcut corroboration. -/
def classifyChange (change : ContentChange) (document : Document)
    (clipboard : String) (flag : Bool) : Bool :=
  isProbablyPaste change document clipboard ||
    (flag && (decide (change.text.length > 10) || jsIncludes change.text "\n"))

/-- The keyboard-tracking step (`setupKeyboardTracking`): when the inserted
    text is exactly "v" and it arrives less than 300ms after the preceding
    keystroke, the paste-shortcut flag is set; the keypress clock is
    refreshed either way.  The 500ms `setTimeout` that clears the flag is
    real-time asynchrony outside this state-step model. -/
def keyboardStep (st : ExtState) (change : ContentChange) (now : Nat) :
    ExtState :=
  if change.text = "v" ∧ now - st.lastKeypressTime < 300 then
    { st with lastPasteKeyCombination := true, lastKeypressTime := now }
  else
    { st with lastKeypressTime := now }

/-- The handler's for-loop over `event.contentChanges`: skip tiny changes
    (length < 5 with no newline), otherwise classify; on the first change
    classified as a paste, return its line count (the source `break`s out
    of the loop there). -/
def processChanges (document : Document) (clipboard : String) (flag : Bool) :
    List ContentChange → Option Nat
  | [] => none
  | change :: rest =>
    if change.text.length < 5 ∧ jsIncludes change.text "\n" = false then
      processChanges document clipboard flag rest
    else if classifyChange change document clipboard flag then
      some (lineCount change.text)
    else
      processChanges document clipboard flag rest

/-- The `onDidChangeTextDocument` handler of `setupPasteTracking`
    (extension.js lines 591-701), as one state step.  Returns the new
    state and `some lineCount` when a paste was counted, `none` otherwise.
    Guards, in source order: tracking toggle, active-editor presence,
    event document equals the active document (by URI string), editable
    document, code patterns in the first 1000 characters of the document,
    the 300ms throttle (which updates `lastEditTime` when passed), empty
    change list, then the clipboard read (a rejection is caught by the
    enclosing try/catch, leaving the already-updated state) and the loop.
    On a counted paste the stats are incremented by (1, lineCount) and the
    shortcut flag is reset. -/
def handleEvent (st : ExtState) (event : ChangeEvent)
    (activeDoc : Option Document) (clipboardRead : Except Unit String)
    (now : Nat) : ExtState × Option Nat :=
  if !st.isTracking then (st, none)
  else
    match activeDoc with
    | none => (st, none)
    | some activeDocument =>
      if event.document.uriString ≠ activeDocument.uriString then (st, none)
      else if ¬ isEditableDocument event.document then (st, none)
      else if ¬ hasCodePatterns (jsTake event.document.text 1000) then (st, none)
      else if now - st.lastEditTime < 300 then (st, none)
      else
        let st1 := { st with lastEditTime := now }
        if event.contentChanges.isEmpty then (st1, none)
        else
          match clipboardRead with
          | Except.error _ => (st1, none)
          | Except.ok clipboard =>
            match processChanges event.document clipboard
                st.lastPasteKeyCombination event.contentChanges with
            | none => (st1, none)
            | some lc =>
              ({ st1 with
                  stats :=
                    { totalPastes := st1.stats.totalPastes + 1,
                      totalLinesPasted := st1.stats.totalLinesPasted + lc },
                  lastPasteKeyCombination := false },
               some lc)

/- ### Helper lemmas -/

/-- Splitting at newlines always yields one more piece than there are
    newline characters (the JS `split` counting law). -/
theorem splitNl_length (l : List Char) :
    (splitNl l).length = l.count '\n' + 1 := by
  induction l with
  | nil => simp [splitNl]
  | cons c rest ih =>
    by_cases hc : c = '\n'
    · simp [splitNl, hc, List.count_cons, ih]
    · cases h : splitNl rest with
      | nil => rw [h] at ih; simp at ih
      | cons hd tl =>
        rw [h] at ih
        simp only [List.length_cons] at ih
        simp [splitNl, hc, h, List.count_cons]
        omega

/-- `lineCount` is the number of newline characters plus one. -/
theorem lineCount_eq_newlines (s : String) :
    lineCount s = s.toList.count '\n' + 1 :=
  splitNl_length s.toList

/- ### The claims -/

/-- C1, counterexample: an inserted text containing the configured marker
    "// Copilot suggestion" is nevertheless counted as a paste by the full
    handler when the paste-shortcut corroboration flag is set, because the
    handler OR's `isProbablyPaste` with the shortcut corroboration, and
    the marker check lives only inside `isProbablyPaste`.  The claim says
    the classifier returns false regardless of the shortcut flag; here it
    returns a paste of 2 lines. -/
theorem claim1_counterexample :
    isCopilotCode "// Copilot suggestion\nx = 1;" = true ∧
    (handleEvent ⟨true, 0, true, 0, ⟨0, 0⟩⟩
      ⟨⟨"file", "file:///a.js", "javascript",
        "function main() \x7b return 1; \x7d"⟩,
       [⟨"// Copilot suggestion\nx = 1;", none⟩]⟩
      (some ⟨"file", "file:///a.js", "javascript",
        "function main() \x7b return 1; \x7d"⟩)
      (Except.ok "") 1000).2 = some 2 := by
  decide

/-- C1, amended: for every ChangeEvent whose inserted text contains a
    configured AI-attribution marker, `isProbablyPaste` returns false
    regardless of all clipboard and bulk signals, and the overall
    per-change decision is false whenever the paste-shortcut corroboration
    flag is clear. -/
theorem claim1_marker_blocks_heuristic (change : ContentChange)
    (document : Document) (clipboard : String) (flag : Bool)
    (hcop : isCopilotCode change.text = true) :
    isProbablyPaste change document clipboard = false ∧
    (flag = false → classifyChange change document clipboard flag = false) := by
  have hp : isProbablyPaste change document clipboard = false := by
    unfold isProbablyPaste
    rw [hcop]
    simp
  refine ⟨hp, fun hf => ?_⟩
  subst hf
  simp [classifyChange, hp]

/-- C1 witness for the amended claim at a concrete input. -/
theorem claim1_witness :
    isProbablyPaste ⟨"// Generated by helper\nconst x = 1;", none⟩
      ⟨"file", "file:///a.js", "javascript", ""⟩ "// Generated by" = false ∧
    (false = false →
      classifyChange ⟨"// Generated by helper\nconst x = 1;", none⟩
        ⟨"file", "file:///a.js", "javascript", ""⟩ "// Generated by" false
        = false) :=
  claim1_marker_blocks_heuristic
    ⟨"// Generated by helper\nconst x = 1;", none⟩
    ⟨"file", "file:///a.js", "javascript", ""⟩ "// Generated by" false
    (by decide)

/-- C2: for every ChangeEvent that passes the pre-filters (no AI marker,
    text not tiny, editable document), a non-empty clipboard whose first
    20 characters occur in the inserted text makes the classifier return
    true, and the line count credited is the number of newline characters
    plus one. -/
theorem claim2_clipboard_match (change : ContentChange) (document : Document)
    (clipboard : String) (flag : Bool)
    (hcop : isCopilotCode change.text = false)
    (hlen : 5 ≤ change.text.length)
    (hdoc : isEditableDocument document = true)
    (hclip : clipboard ≠ "")
    (hincl : jsIncludes change.text (jsTake clipboard 20) = true) :
    classifyChange change document clipboard flag = true ∧
    lineCount change.text = change.text.toList.count '\n' + 1 := by
  refine ⟨?_, lineCount_eq_newlines change.text⟩
  unfold classifyChange isProbablyPaste
  rw [hcop, hdoc]
  have h5 : ¬ change.text.length < 5 := by omega
  simp [h5, hclip, hincl]

/-- C2 witness: clipboard "function foo() \x7b" with the three-line
    insertion of the spec example yields a paste of 3 lines. -/
theorem claim2_witness :
    classifyChange ⟨"function foo() \x7b\n  return 1;\n\x7d", none⟩
      ⟨"file", "file:///a.js", "javascript", ""⟩ "function foo() \x7b" false
      = true ∧
    lineCount "function foo() \x7b\n  return 1;\n\x7d" = 3 :=
  ⟨(claim2_clipboard_match ⟨"function foo() \x7b\n  return 1;\n\x7d", none⟩
      ⟨"file", "file:///a.js", "javascript", ""⟩ "function foo() \x7b" false
      (by decide) (by decide) (by decide) (by decide) (by decide)).1,
   by decide⟩

/-- C3: when the paste-shortcut flag is set — which happens when the
    character "v" arrives less than 300ms after the preceding keystroke —
    any inserted text of length > 10 or containing a newline is classified
    as a paste, regardless of the clipboard and bulk signals. -/
theorem claim3_shortcut_corroboration (st : ExtState)
    (vchange change : ContentChange) (document : Document)
    (clipboard : String) (now : Nat)
    (hv : vchange.text = "v") (hfast : now - st.lastKeypressTime < 300)
    (hbig : 10 < change.text.length ∨ jsIncludes change.text "\n" = true) :
    (keyboardStep st vchange now).lastPasteKeyCombination = true ∧
    classifyChange change document clipboard true = true := by
  constructor
  · unfold keyboardStep
    rw [if_pos ⟨hv, hfast⟩]
  · unfold classifyChange
    rcases hbig with h | h
    · simp [h]
    · simp [h]

/-- C3 witness: a 12-character single-line insertion with the shortcut
    flag set is counted even with an empty clipboard. -/
theorem claim3_witness :
    ExtState.lastPasteKeyCombination
      (keyboardStep ⟨true, 0, false, 100, ⟨0, 0⟩⟩ ⟨"v", none⟩ 200) = true ∧
    classifyChange ⟨"abcdefghijkl", none⟩
      ⟨"file", "file:///a.js", "javascript", ""⟩ "" true = true :=
  claim3_shortcut_corroboration ⟨true, 0, false, 100, ⟨0, 0⟩⟩ ⟨"v", none⟩
    ⟨"abcdefghijkl", none⟩ ⟨"file", "file:///a.js", "javascript", ""⟩ "" 200
    (by decide) (by decide) (by decide)

/-- C5: with the pre-filters passed and the clipboard signal not matching,
    an inserted text of length > 50 that spans more than 2 lines or whose
    originating edit replaced a span wider than 10 columns is classified
    as a paste. -/
theorem claim5_bulk_heuristic (change : ContentChange) (document : Document)
    (clipboard : String) (flag : Bool)
    (hcop : isCopilotCode change.text = false)
    (hdoc : isEditableDocument document = true)
    (hlen : 50 < change.text.length)
    (_hnoclip : (decide (clipboard ≠ "") &&
      jsIncludes change.text (jsTake clipboard 20)) = false)
    (hwide : (splitNl change.text.toList).length > 2 ∨
      (∃ range, change.range = some range ∧
        ((range.stop.character : Int) - (range.start.character : Int)).natAbs
          > 10)) :
    classifyChange change document clipboard flag = true := by
  unfold classifyChange isProbablyPaste
  rw [hcop, hdoc]
  have h5 : ¬ change.text.length < 5 := by omega
  rcases hwide with h | ⟨range, hr, hw⟩
  · simp [h5, hlen]
    exact Or.inl (Or.inr (Or.inl h))
  · simp [h5, hlen, hr, hw]

/-- C5 witness: an 80-character single-line insertion from a replace
    spanning 15 columns, with a non-matching clipboard, is a paste of
    1 line. -/
theorem claim5_witness :
    classifyChange
      ⟨"abcdefghijabcdefghijabcdefghijabcdefghijabcdefghijabcdefghijabcdefghijabcdefghij",
        some ⟨⟨0, 0⟩, ⟨0, 15⟩⟩⟩
      ⟨"file", "file:///a.js", "javascript", ""⟩ "zzz" false = true ∧
    lineCount
      "abcdefghijabcdefghijabcdefghijabcdefghijabcdefghijabcdefghijabcdefghijabcdefghij"
      = 1 :=
  ⟨claim5_bulk_heuristic
      ⟨"abcdefghijabcdefghijabcdefghijabcdefghijabcdefghijabcdefghijabcdefghijabcdefghij",
        some ⟨⟨0, 0⟩, ⟨0, 15⟩⟩⟩
      ⟨"file", "file:///a.js", "javascript", ""⟩ "zzz" false
      (by decide) (by decide) (by decide) (by decide)
      (Or.inr ⟨⟨⟨0, 0⟩, ⟨0, 15⟩⟩, rfl, by decide⟩),
   by decide⟩

/-- C6: an inserted text of length < 5 with no newline is never classified
    as a paste, whatever the document, clipboard and shortcut flag are. -/
theorem claim6_tiny_never_paste (change : ContentChange) (document : Document)
    (clipboard : String) (flag : Bool)
    (hlen : change.text.length < 5)
    (hnl : jsIncludes change.text "\n" = false) :
    classifyChange change document clipboard flag = false := by
  have h10 : ¬ change.text.length > 10 := by omega
  unfold classifyChange isProbablyPaste
  rw [hnl]
  simp [hlen, h10]

/-- C6 witness: the single character "x" with a matching clipboard and the
    shortcut flag set is still not a paste. -/
theorem claim6_witness :
    classifyChange ⟨"x", none⟩ ⟨"file", "file:///a.js", "javascript", ""⟩
      "x" true = false :=
  claim6_tiny_never_paste ⟨"x", none⟩
    ⟨"file", "file:///a.js", "javascript", ""⟩ "x" true (by decide) (by decide)

/-- C4: classification is pure in the event and its context.  Two runs of
    the handler from any two states that agree on the context signals
    (tracking on, shortcut flag equal) and both pass the throttle produce
    the same decision and the same line count, whatever the cumulative
    counters and clocks otherwise are — no classifier-owned mutable state
    beyond the clocks and the flag influences the result. -/
theorem claim4_classification_pure (s₁ s₂ : ExtState) (event : ChangeEvent)
    (activeDoc : Option Document) (clipboardRead : Except Unit String)
    (now : Nat)
    (ht₁ : s₁.isTracking = true) (ht₂ : s₂.isTracking = true)
    (hflag : s₁.lastPasteKeyCombination = s₂.lastPasteKeyCombination)
    (hth₁ : ¬ now - s₁.lastEditTime < 300)
    (hth₂ : ¬ now - s₂.lastEditTime < 300) :
    (handleEvent s₁ event activeDoc clipboardRead now).2 =
    (handleEvent s₂ event activeDoc clipboardRead now).2 := by
  unfold handleEvent
  rw [ht₁, ht₂, hflag]
  cases activeDoc with
  | none => rfl
  | some activeDocument =>
    simp only [Bool.not_true, Bool.false_eq_true, if_false]
    split
    · rfl
    · split
      · rfl
      · split
        · rfl
        · split
          · rfl
          · cases clipboardRead with
            | error e => rfl
            | ok clipboard =>
              cases hp : processChanges event.document clipboard
                  s₂.lastPasteKeyCombination event.contentChanges with
              | none => simp [hp]
              | some lc => simp [hp]

/-- C4 witness: two states with different counters and clocks (both past
    the throttle, flags equal) classify the same event identically. -/
theorem claim4_witness :
    (handleEvent ⟨true, 0, false, 0, ⟨0, 0⟩⟩
      ⟨⟨"file", "file:///a.js", "javascript",
        "function main() \x7b return 1; \x7d"⟩,
       [⟨"function foo() \x7b\n  return 1;\n\x7d", none⟩]⟩
      (some ⟨"file", "file:///a.js", "javascript",
        "function main() \x7b return 1; \x7d"⟩)
      (Except.ok "function foo() \x7b") 1000).2 =
    (handleEvent ⟨true, 100, false, 77, ⟨42, 999⟩⟩
      ⟨⟨"file", "file:///a.js", "javascript",
        "function main() \x7b return 1; \x7d"⟩,
       [⟨"function foo() \x7b\n  return 1;\n\x7d", none⟩]⟩
      (some ⟨"file", "file:///a.js", "javascript",
        "function main() \x7b return 1; \x7d"⟩)
      (Except.ok "function foo() \x7b") 1000).2 :=
  claim4_classification_pure ⟨true, 0, false, 0, ⟨0, 0⟩⟩
    ⟨true, 100, false, 77, ⟨42, 999⟩⟩
    ⟨⟨"file", "file:///a.js", "javascript",
      "function main() \x7b return 1; \x7d"⟩,
     [⟨"function foo() \x7b\n  return 1;\n\x7d", none⟩]⟩
    (some ⟨"file", "file:///a.js", "javascript",
      "function main() \x7b return 1; \x7d"⟩)
    (Except.ok "function foo() \x7b") 1000
    (by decide) (by decide) (by decide) (by decide) (by decide)

/-- C7: when the document profile says ignore (`isEditableDocument` is
    false), the handler skips the event without classifying it or touching
    any state, whatever the clipboard holds. -/
theorem claim7_ignored_document (st : ExtState) (event : ChangeEvent)
    (activeDoc : Option Document) (clipboardRead : Except Unit String)
    (now : Nat)
    (hdoc : isEditableDocument event.document = false) :
    handleEvent st event activeDoc clipboardRead now = (st, none) := by
  unfold handleEvent
  split
  · rfl
  · split
    · rfl
    · split
      · rfl
      · split
        · rfl
        · simp_all

/-- C7 witness: a markdown document is skipped even though the clipboard
    text equals the inserted text exactly. -/
theorem claim7_witness :
    handleEvent ⟨true, 0, false, 0, ⟨0, 0⟩⟩
      ⟨⟨"file", "file:///notes.md", "markdown",
        "function main() \x7b return 1; \x7d"⟩,
       [⟨"function foo() \x7b\n  return 1;\n\x7d", none⟩]⟩
      (some ⟨"file", "file:///notes.md", "markdown",
        "function main() \x7b return 1; \x7d"⟩)
      (Except.ok "function foo() \x7b\n  return 1;\n\x7d") 1000
      = (⟨true, 0, false, 0, ⟨0, 0⟩⟩, none) :=
  claim7_ignored_document ⟨true, 0, false, 0, ⟨0, 0⟩⟩
    ⟨⟨"file", "file:///notes.md", "markdown",
      "function main() \x7b return 1; \x7d"⟩,
     [⟨"function foo() \x7b\n  return 1;\n\x7d", none⟩]⟩
    (some ⟨"file", "file:///notes.md", "markdown",
      "function main() \x7b return 1; \x7d"⟩)
    (Except.ok "function foo() \x7b\n  return 1;\n\x7d") 1000 (by decide)

/-- C8: an event arriving less than 300ms after the previous processed
    edit is skipped entirely — no classification, no state change — and,
    within one event, at most one change of the batch is counted as a
    paste (the loop stops at the first hit). -/
theorem claim8_throttle_single_count (st : ExtState) (event : ChangeEvent)
    (activeDoc : Option Document) (clipboardRead : Except Unit String)
    (now : Nat) :
    (now - st.lastEditTime < 300 →
      handleEvent st event activeDoc clipboardRead now = (st, none)) ∧
    (handleEvent st event activeDoc clipboardRead now).1.stats.totalPastes
      ≤ st.stats.totalPastes + 1 := by
  constructor
  · intro hth
    unfold handleEvent
    split
    · rfl
    · split
      · rfl
      · split
        · rfl
        · split
          · rfl
          · split
            · rfl
            · simp_all
  · unfold handleEvent
    repeat' split
    all_goals first | exact Nat.le_refl _ | exact Nat.le_succ _

/-- C8 witness: a second event 50ms after the previous processed edit is
    skipped whole, even though its change would classify as a paste. -/
theorem claim8_witness :
    (1050 : Nat) - 1000 < 300 ∧
    handleEvent ⟨true, 1000, false, 0, ⟨3, 9⟩⟩
      ⟨⟨"file", "file:///a.js", "javascript",
        "function main() \x7b return 1; \x7d"⟩,
       [⟨"function foo() \x7b\n  return 1;\n\x7d", none⟩]⟩
      (some ⟨"file", "file:///a.js", "javascript",
        "function main() \x7b return 1; \x7d"⟩)
      (Except.ok "function foo() \x7b") 1050
      = (⟨true, 1000, false, 0, ⟨3, 9⟩⟩, none) :=
  ⟨by decide,
   (claim8_throttle_single_count ⟨true, 1000, false, 0, ⟨3, 9⟩⟩
      ⟨⟨"file", "file:///a.js", "javascript",
        "function main() \x7b return 1; \x7d"⟩,
       [⟨"function foo() \x7b\n  return 1;\n\x7d", none⟩]⟩
      (some ⟨"file", "file:///a.js", "javascript",
        "function main() \x7b return 1; \x7d"⟩)
      (Except.ok "function foo() \x7b") 1050).1 (by decide)⟩

/-- C9: a clipboard read failure (the awaited read rejecting, swallowed by
    the handler's try/catch) degrades the event to "no paste": the
    decision is none and the cumulative counters are untouched; the
    handler is a total function, so subsequent events keep being
    processed. -/
theorem claim9_clipboard_failure (st : ExtState) (event : ChangeEvent)
    (activeDoc : Option Document) (now : Nat) :
    (handleEvent st event activeDoc (Except.error ()) now).2 = none ∧
    (handleEvent st event activeDoc (Except.error ()) now).1.stats
      = st.stats := by
  unfold handleEvent
  repeat' split
  all_goals try exact ⟨rfl, rfl⟩
  all_goals simp_all

/-- C10: when the first 1000 characters of the document contain none of
    the code patterns, the event is skipped before classification and the
    counters cannot change, even for an editable document with an exactly
    matching clipboard. -/
theorem claim10_no_code_patterns (st : ExtState) (event : ChangeEvent)
    (activeDoc : Option Document) (clipboardRead : Except Unit String)
    (now : Nat)
    (hpat : hasCodePatterns (jsTake event.document.text 1000) = false) :
    handleEvent st event activeDoc clipboardRead now = (st, none) := by
  unfold handleEvent
  split
  · rfl
  · split
    · rfl
    · split
      · rfl
      · split
        · rfl
        · split
          · rfl
          · simp_all

/-- C10 witness: a plain-prose document (editable profile, clipboard equal
    to the inserted text) is skipped because it shows no code patterns. -/
theorem claim10_witness :
    handleEvent ⟨true, 0, false, 0, ⟨0, 0⟩⟩
      ⟨⟨"file", "file:///a.js", "javascript", "hello world"⟩,
       [⟨"function foo() \x7b\n  return 1;\n\x7d", none⟩]⟩
      (some ⟨"file", "file:///a.js", "javascript", "hello world"⟩)
      (Except.ok "function foo() \x7b\n  return 1;\n\x7d") 1000
      = (⟨true, 0, false, 0, ⟨0, 0⟩⟩, none) :=
  claim10_no_code_patterns ⟨true, 0, false, 0, ⟨0, 0⟩⟩
    ⟨⟨"file", "file:///a.js", "javascript", "hello world"⟩,
     [⟨"function foo() \x7b\n  return 1;\n\x7d", none⟩]⟩
    (some ⟨"file", "file:///a.js", "javascript", "hello world"⟩)
    (Except.ok "function foo() \x7b\n  return 1;\n\x7d") 1000 (by decide)

end CopyJedi
